import Mathlib

/-!
Shallow embedding of src/regexp/regexp-utils.cc (class RegExpUtils).

The external collaborators (property model, callable invocation, coercion)
are modelled as oracle functions collected in a `Collaborators` structure;
the runtime-global state (initial maps, the force-slow-path flag, the
built-in exec function) is a `Isolate` record. Maps (type descriptors) are
identified by `Nat` identity, strings are lists of UTF-16 code units
(`List Nat`), and the JavaScript value universe is the inductive `Value`.
-/

set_option autoImplicit false
set_option linter.unusedVariables false

namespace V8

/-- Property keys used by this translation unit: the lastIndex string, the
exec string, and the well-known match symbol. -/
inductive PropKey : Type where
  | lastIndex : PropKey
  | exec : PropKey
  | matchSymbol : PropKey
  deriving DecidableEq

/-- Message templates of the type errors thrown in this translation unit. -/
inductive MessageTemplate : Type where
  | kInvalidRegExpExecResult : MessageTemplate
  | kIncompatibleMethodReceiver : MessageTemplate
  deriving DecidableEq

/-- A pending exception: either a TypeError created here (NewTypeError with a
message template) or an arbitrary exception raised by user code inside a
collaborator (getter, setter, callable, coercion). -/
inductive JSError : Type where
  | typeError (m : MessageTemplate) : JSError
  | userError (n : Nat) : JSError
  deriving DecidableEq

mutual
/-- The JavaScript value universe as far as this translation unit inspects it:
undefined, null, Smi (small integer), heap number, string, or a JSReceiver. -/
inductive Value : Type where
  | undefined : Value
  | null : Value
  | smi (n : Int) : Value
  | heapNumber (n : Int) : Value
  | str (s : List Nat) : Value
  | receiver (r : Receiver) : Value

/-- A JSReceiver as inspected here: its map (type-descriptor identity as a
`Nat`), the map of its prototype (`none` when the prototype is not a
JSReceiver), whether it is a genuine JSRegExp, the in-object lastIndex slot
(meaningful when it is a JSRegExp), and whether it is callable. -/
inductive Receiver : Type where
  | mk (map : Nat) (protoMap : Option Nat) (isJSRegExp : Bool)
      (lastIndex : Value) (callable : Bool) : Receiver
end

/-- The map of the receiver, `recv->map()`. -/
def Receiver.map : Receiver → Nat
  | .mk m _ _ _ _ => m

/-- The map of the prototype of the receiver, `recv->map()->prototype()` when
that prototype is a JSReceiver, else `none`. -/
def Receiver.protoMap : Receiver → Option Nat
  | .mk _ p _ _ _ => p

/-- Whether the receiver is a genuine JSRegExp instance. -/
def Receiver.isJSRegExp : Receiver → Bool
  | .mk _ _ b _ _ => b

/-- The in-object lastIndex slot, `JSRegExp::cast(recv)->last_index()`. -/
def Receiver.lastIndex : Receiver → Value
  | .mk _ _ _ v _ => v

/-- Whether the receiver is callable. -/
def Receiver.callable : Receiver → Bool
  | .mk _ _ _ _ c => c

/-- The receiver with its lastIndex slot overwritten,
`JSRegExp::cast(recv)->set_last_index(v)`. -/
def Receiver.setLastIndexSlot : Receiver → Value → Receiver
  | .mk m p r _ c, v => .mk m p r v c

/-- Value test `IsUndefined`. -/
def Value.isUndefined : Value → Bool
  | .undefined => true
  | _ => false

/-- Value test `IsNull`. -/
def Value.isNull : Value → Bool
  | .null => true
  | _ => false

/-- Value test `IsJSReceiver`. -/
def Value.isJSReceiver : Value → Bool
  | .receiver _ => true
  | _ => false

/-- Value test `IsJSRegExp` (a JSReceiver that is a genuine JSRegExp). -/
def Value.isJSRegExp : Value → Bool
  | .receiver r => r.isJSRegExp
  | _ => false

/-- Value test `IsCallable` (only receivers can be callable). -/
def Value.isCallable : Value → Bool
  | .receiver r => r.callable
  | _ => false

/-- The per-process runtime state this translation unit consults:
`isolate->regexp_function()->initial_map()`,
`isolate->regexp_prototype_map()`, `isolate->force_slow_path()` (with
V8_ENABLE_FORCE_SLOW_PATH compiled in), and
`isolate->regexp_exec_function()`. -/
structure Isolate : Type where
  regexpInitialMap : Nat
  regexpPrototypeMap : Nat
  forceSlowPath : Bool
  regexpExecFunction : Value

/-- The external collaborators, as oracles: the general property protocol
(`Object::GetProperty` / `Object::SetProperty` in strict mode, which may run
user getters and setters), callable invocation (`Execution::Call`), and the
`Object::ToLength` coercion and `BooleanValue` coercion. `setProp` yields
the result value of the write together with the receiver as user code left
it. Each oracle may fail with any `JSError`. -/
structure Collaborators : Type where
  getProp : Receiver → PropKey → Except JSError Value
  setProp : Receiver → PropKey → Value → Except JSError (Value × Receiver)
  call : Value → Value → List Value → Except JSError Value
  toLength : Value → Except JSError Value
  toBoolean : Value → Bool

/-- Maximal Smi value (64-bit platforms with 31-bit Smis): 2^31 - 1. -/
def kSmiMaxValue : Nat := 2 ^ 31 - 1

/-- Largest integer exactly representable as a double, 2^53 - 1. -/
def kMaxSafeInteger : Nat := 2 ^ 53 - 1

/-- Factory NewNumberFromInt64: a Smi when the value fits, else a heap
number. Callers in this file pass lastIndex values, which are at most
kMaxSafeInteger + 1, so the int64 cast in the source never wraps. -/
def NewNumberFromInt64 (value : Nat) : Value :=
  if value ≤ kSmiMaxValue then .smi (value : Int) else .heapNumber (value : Int)

/-- PositiveNumberToUint64 on a number object (the source only applies it to
the result of ToLength, which is a non-negative number). -/
def PositiveNumberToUint64 (value : Value) : Nat :=
  match value with
  | .smi n => n.toNat
  | .heapNumber n => n.toNat
  | _ => 0

/-- A capture-register table (RegExpMatchInfo): the flat register list (pairs
of start/end offsets, -1 for a group that did not participate) and the
subject string the match was computed against (LastSubject). -/
structure RegExpMatchInfo : Type where
  captures : List Int
  lastSubject : List Nat

/-- Register count, `match_info->NumberOfCaptureRegisters()`. -/
def RegExpMatchInfo.NumberOfCaptureRegisters (mi : RegExpMatchInfo) : Nat :=
  mi.captures.length

/-- Register read, `match_info->Capture(i)` (the source only reads in
bounds; out of bounds defaults to 0 here). -/
def RegExpMatchInfo.Capture (mi : RegExpMatchInfo) (i : Nat) : Int :=
  mi.captures.getD i 0

/-- Factory NewSubString: the code units of s in positions [a, b). -/
def NewSubString (s : List Nat) (a b : Int) : List Nat :=
  (s.take b.toNat).drop a.toNat

/-- RegExpUtils::GenericCaptureGetter. Returns the extracted string together
with the ok flag the source writes through the `bool* ok` out-parameter
(the empty string is the sentinel for the not-matched cases). -/
def GenericCaptureGetter (mi : RegExpMatchInfo) (capture : Nat) :
    List Nat × Bool :=
  let index := capture * 2
  if decide (mi.NumberOfCaptureRegisters ≤ index) then
    ([], false)
  else
    let match_start := mi.Capture index
    let match_end := mi.Capture (index + 1)
    if match_start == -1 || match_end == -1 then
      ([], false)
    else
      (NewSubString mi.lastSubject match_start match_end, true)

/-- HasInitialRegExpMap (anonymous namespace):
`recv->map() == isolate->regexp_function()->initial_map()`. -/
def HasInitialRegExpMap (iso : Isolate) (recv : Receiver) : Bool :=
  recv.map == iso.regexpInitialMap

/-- RegExpUtils::SetLastIndex. On the initial-map path the slot is written
directly and the receiver itself is returned; otherwise the write goes
through Object::SetProperty in strict mode. The mutated receiver is
returned alongside the result value. -/
def SetLastIndex (iso : Isolate) (C : Collaborators) (recv : Receiver)
    (value : Nat) : Except JSError (Value × Receiver) :=
  let value_as_object := NewNumberFromInt64 value
  if HasInitialRegExpMap iso recv then
    let recv2 := recv.setLastIndexSlot value_as_object
    .ok (.receiver recv2, recv2)
  else
    C.setProp recv PropKey.lastIndex value_as_object

/-- RegExpUtils::GetLastIndex. On the initial-map path the slot is read
directly; otherwise the read goes through Object::GetProperty. -/
def GetLastIndex (iso : Isolate) (C : Collaborators) (recv : Receiver) :
    Except JSError Value :=
  if HasInitialRegExpMap iso recv then
    .ok recv.lastIndex
  else
    C.getProp recv PropKey.lastIndex

/-- RegExpUtils::RegExpExec (ES#sec-regexpexec). When the optional exec
argument is undefined, the exec property is fetched from the matcher first;
a callable exec is invoked with the matcher as receiver and the subject as
sole argument and its result shape is validated; otherwise a genuine
JSRegExp falls through to the built-in exec function and anything else is an
incompatible receiver. -/
def RegExpExec (iso : Isolate) (C : Collaborators) (regexp : Receiver)
    (string : List Nat) (exec : Value) : Except JSError Value :=
  let fetched : Except JSError Value :=
    if exec.isUndefined then C.getProp regexp PropKey.exec else .ok exec
  match fetched with
  | .error e => .error e
  | .ok exec =>
    if exec.isCallable then
      match C.call exec (.receiver regexp) [.str string] with
      | .error e => .error e
      | .ok result =>
        if !result.isJSReceiver && !result.isNull then
          .error (.typeError .kInvalidRegExpExecResult)
        else
          .ok result
    else if !(Value.receiver regexp).isJSRegExp then
      .error (.typeError .kIncompatibleMethodReceiver)
    else
      C.call iso.regexpExecFunction (.receiver regexp) [.str string]

/-- RegExpUtils::IsRegExp (ES#sec-isregexp). Non-receivers are not regexps;
otherwise the well-known match symbol is read (errors propagate) and, when
defined, decides by boolean coercion; else genuine-JSRegExp-ness decides. -/
def IsRegExp (iso : Isolate) (C : Collaborators) (object : Value) :
    Except JSError Bool :=
  match object with
  | .receiver receiver =>
    match C.getProp receiver PropKey.matchSymbol with
    | .error e => .error e
    | .ok m =>
      if !m.isUndefined then
        .ok (C.toBoolean m)
      else
        .ok (Value.isJSRegExp object)
  | _ => .ok false

/-- RegExpUtils::IsUnmodifiedRegExp. Forced slow path defeats it; then the
input must be a receiver whose map is the RegExp initial map, whose
prototype is a receiver with the RegExp prototype map, and whose lastIndex
slot is a non-negative Smi. -/
def IsUnmodifiedRegExp (iso : Isolate) (obj : Value) : Bool :=
  if iso.forceSlowPath then false
  else
    match obj with
    | .receiver recv =>
      if recv.map != iso.regexpInitialMap then false
      else
        match recv.protoMap with
        | none => false
        | some protoMap =>
          if protoMap != iso.regexpPrototypeMap then false
          else
            match recv.lastIndex with
            | .smi n => decide (0 ≤ n)
            | _ => false
    | _ => false

/-- RegExpUtils::AdvanceStringIndex. In unicode mode a high surrogate at
index followed by a low surrogate advances by two code units, anything else
by one. -/
def AdvanceStringIndex (string : List Nat) (index : Nat) (unicode : Bool) :
    Nat :=
  let string_length := string.length
  if unicode && decide (index < string_length) then
    let first := string.getD index 0
    if decide (0xD800 ≤ first) && decide (first ≤ 0xDBFF)
        && decide (index + 1 < string_length) then
      let second := string.getD (index + 1) 0
      if decide (0xDC00 ≤ second) && decide (second ≤ 0xDFFF) then
        index + 2
      else
        index + 1
    else
      index + 1
  else
    index + 1

/-- RegExpUtils::SetAdvancedStringIndex. Reads lastIndex through the general
property protocol, coerces it with ToLength, advances it, and writes it
back through SetLastIndex. -/
def SetAdvancedStringIndex (iso : Isolate) (C : Collaborators)
    (regexp : Receiver) (string : List Nat) (unicode : Bool) :
    Except JSError (Value × Receiver) :=
  match C.getProp regexp PropKey.lastIndex with
  | .error e => .error e
  | .ok last_index_obj =>
    match C.toLength last_index_obj with
    | .error e => .error e
    | .ok last_index_obj =>
      let last_index := PositiveNumberToUint64 last_index_obj
      let new_last_index := AdvanceStringIndex string last_index unicode
      SetLastIndex iso C regexp new_last_index

/-- The surrogate-pair condition of AdvanceStringIndex, as a proposition. -/
def SurrogatePairAt (string : List Nat) (index : Nat) : Prop :=
  index < string.length ∧
  0xD800 ≤ string.getD index 0 ∧ string.getD index 0 ≤ 0xDBFF ∧
  index + 1 < string.length ∧
  0xDC00 ≤ string.getD (index + 1) 0 ∧ string.getD (index + 1) 0 ≤ 0xDFFF

instance (string : List Nat) (index : Nat) :
    Decidable (SurrogatePairAt string index) := by
  unfold SurrogatePairAt; infer_instance

theorem advanceStringIndex_true_eq (s : List Nat) (i : Nat) :
    AdvanceStringIndex s i true =
      if SurrogatePairAt s i then i + 2 else i + 1 := by
  unfold AdvanceStringIndex SurrogatePairAt
  simp only [Bool.true_and, Bool.and_eq_true, decide_eq_true_eq]
  split_ifs <;> tauto

/-- C4: advance with unicode off returns index + 1; with unicode on it
returns index + 2 exactly when there is a high surrogate at index followed
in bounds by a low surrogate, and index + 1 in every other case; it is a
pure function. -/
theorem c4_advance_spec (s : List Nat) (i : Nat) (h : i ≤ kMaxSafeInteger) :
    AdvanceStringIndex s i false = i + 1 ∧
    (AdvanceStringIndex s i true = i + 2 ↔ SurrogatePairAt s i) ∧
    (¬ SurrogatePairAt s i → AdvanceStringIndex s i true = i + 1) := by
  refine ⟨by simp [AdvanceStringIndex], ?_, ?_⟩
  · rw [advanceStringIndex_true_eq]
    by_cases hc : SurrogatePairAt s i
    · simp [hc]
    · simp [hc]
  · intro hc
    rw [advanceStringIndex_true_eq, if_neg hc]

/-- C4 witness: at index 0 of a string holding one surrogate pair, unicode
advance steps by two and non-unicode advance by one; at index 1 unicode
advance steps by one. -/
theorem c4_advance_witness :
    AdvanceStringIndex [0xD801, 0xDC37, 97] 0 false = 1 ∧
    AdvanceStringIndex [0xD801, 0xDC37, 97] 0 true = 2 ∧
    AdvanceStringIndex [0xD801, 0xDC37, 97] 1 true = 2 := by
  have h0 := c4_advance_spec [0xD801, 0xDC37, 97] 0 (by decide)
  have h1 := c4_advance_spec [0xD801, 0xDC37, 97] 1 (by decide)
  refine ⟨h0.1, (h0.2.1).mpr (by decide), ?_⟩
  by_contra hne
  have := (h1.2.2 (by decide))
  simp [this] at hne

/-- C5: the capture extractor returns the empty string and false when the
group index is out of range of the register table or when either register
of the pair is -1, and otherwise the substring of the recorded last subject
from start inclusive to end exclusive together with true; it is a total
function (never fails). -/
theorem c5_genericCaptureGetter_spec (mi : RegExpMatchInfo) (g : Nat) :
    (mi.NumberOfCaptureRegisters < g * 2 + 1 →
      GenericCaptureGetter mi g = ([], false)) ∧
    (g * 2 + 1 ≤ mi.NumberOfCaptureRegisters →
      ((mi.Capture (g * 2) = -1 ∨ mi.Capture (g * 2 + 1) = -1) →
        GenericCaptureGetter mi g = ([], false)) ∧
      (mi.Capture (g * 2) ≠ -1 → mi.Capture (g * 2 + 1) ≠ -1 →
        GenericCaptureGetter mi g =
          (NewSubString mi.lastSubject (mi.Capture (g * 2))
            (mi.Capture (g * 2 + 1)), true))) := by
  unfold GenericCaptureGetter
  constructor
  · intro hlt
    rw [if_pos]
    exact decide_eq_true_eq.mpr (by omega)
  · intro hle
    rw [if_neg (by simp only [decide_eq_true_eq]; omega)]
    constructor
    · intro hcase
      rw [if_pos]
      rcases hcase with hc | hc <;> simp [hc]
    · intro hs he
      rw [if_neg (by simp [hs, he])]

/-- C5 witness: over subject abcdefgh, registers (2,5) extract cde with
true; registers (-1,-1) extract the empty string with false; a group index
past the table extracts the empty string with false. -/
theorem c5_genericCaptureGetter_witness :
    GenericCaptureGetter ⟨[2, 5], [97, 98, 99, 100, 101, 102, 103, 104]⟩ 0 =
      ([99, 100, 101], true) ∧
    GenericCaptureGetter ⟨[-1, -1], [97, 98]⟩ 0 = ([], false) ∧
    GenericCaptureGetter ⟨[2, 5], [97, 98, 99, 100, 101, 102, 103, 104]⟩ 1 =
      ([], false) := by
  refine ⟨?_, ?_, ?_⟩
  · have h := (c5_genericCaptureGetter_spec
      ⟨[2, 5], [97, 98, 99, 100, 101, 102, 103, 104]⟩ 0).2 (by decide)
    rw [h.2 (by decide) (by decide)]
    rfl
  · exact ((c5_genericCaptureGetter_spec ⟨[-1, -1], [97, 98]⟩ 0).2
      (by decide)).1 (by decide)
  · exact (c5_genericCaptureGetter_spec
      ⟨[2, 5], [97, 98, 99, 100, 101, 102, 103, 104]⟩ 1).1 (by decide)

/-- C6: the unmodified-regexp classifier returns true exactly when the
forced slow path is off, the input is a receiver with the regexp initial
map, its prototype is a receiver with the regexp prototype map, and its
lastIndex slot is a non-negative Smi; with the force-slow-path flag on it
always returns false. -/
theorem c6_isUnmodifiedRegExp_spec (iso : Isolate) (obj : Value) :
    (IsUnmodifiedRegExp iso obj = true ↔
      (iso.forceSlowPath = false ∧
        ∃ recv, obj = Value.receiver recv ∧
          recv.map = iso.regexpInitialMap ∧
          recv.protoMap = some iso.regexpPrototypeMap ∧
          ∃ n : Int, recv.lastIndex = Value.smi n ∧ 0 ≤ n)) ∧
    (iso.forceSlowPath = true → IsUnmodifiedRegExp iso obj = false) := by
  constructor
  · cases hf : iso.forceSlowPath with
    | true => simp [IsUnmodifiedRegExp, hf]
    | false =>
      cases obj with
      | receiver recv =>
        cases recv with
        | mk m p r li c =>
          by_cases hm : m = iso.regexpInitialMap
          · subst hm
            cases p with
            | none =>
              simp [IsUnmodifiedRegExp, hf, Receiver.map, Receiver.protoMap,
                Receiver.lastIndex]
            | some pm =>
              by_cases hpe : pm = iso.regexpPrototypeMap
              · subst hpe
                cases li <;>
                  simp [IsUnmodifiedRegExp, hf, Receiver.map,
                    Receiver.protoMap, Receiver.lastIndex]
              · simp [IsUnmodifiedRegExp, hf, hpe, Receiver.map,
                  Receiver.protoMap, Receiver.lastIndex]
          · simp [IsUnmodifiedRegExp, hf, hm, Receiver.map,
              Receiver.protoMap, Receiver.lastIndex]
      | undefined => simp [IsUnmodifiedRegExp, hf]
      | null => simp [IsUnmodifiedRegExp, hf]
      | smi n => simp [IsUnmodifiedRegExp, hf]
      | heapNumber n => simp [IsUnmodifiedRegExp, hf]
      | str s => simp [IsUnmodifiedRegExp, hf]
  · intro hf2
    simp [IsUnmodifiedRegExp, hf2]

/-- C6 witness: a pristine receiver is classified true; flipping the
force-slow-path flag makes the same receiver classify false. -/
theorem c6_isUnmodifiedRegExp_witness :
    IsUnmodifiedRegExp ⟨0, 1, false, Value.undefined⟩
      (Value.receiver (.mk 0 (some 1) true (Value.smi 0) false)) = true ∧
    IsUnmodifiedRegExp ⟨0, 1, true, Value.undefined⟩
      (Value.receiver (.mk 0 (some 1) true (Value.smi 0) false)) = false := by
  constructor
  · exact (c6_isUnmodifiedRegExp_spec ⟨0, 1, false, Value.undefined⟩
      (Value.receiver (.mk 0 (some 1) true (Value.smi 0) false))).1.mpr
      ⟨rfl, _, rfl, rfl, rfl, 0, rfl, le_refl 0⟩
  · exact (c6_isUnmodifiedRegExp_spec ⟨0, 1, true, Value.undefined⟩
      (Value.receiver (.mk 0 (some 1) true (Value.smi 0) false))).2 rfl

/-- A concrete runtime state: initial map identity 0, prototype map identity
1, forced slow path off, and a callable built-in exec function. -/
def iso0 : Isolate :=
  ⟨0, 1, false, Value.receiver (.mk 5 none false Value.undefined true)⟩

/-- A pristine matcher for the runtime state iso0: initial map, prototype
with the prototype map, genuine JSRegExp, lastIndex slot Smi 0. -/
def recvInit : Receiver := .mk 0 (some 1) true (Value.smi 0) false

/-- A plain object: neither the initial map nor a genuine JSRegExp. -/
def recvPlain : Receiver := .mk 42 (some 1) false Value.undefined false

/-- A matcher that still has the initial map but whose prototype map is not
the regexp prototype map (RegExp.prototype was extended), so
IsUnmodifiedRegExp classifies it as modified. -/
def recvForeign : Receiver := .mk 0 (some 999) true (Value.smi 0) false

/-- A callable user function value. -/
def execFn : Value := Value.receiver (.mk 7 none false Value.undefined true)

/-- Collaborators whose every oracle fails: any result that still comes back
ok can only have been produced without consulting the property protocol,
the invoker, or the coercions. -/
def CErr : Collaborators where
  getProp _ _ := .error (.userError 1)
  setProp _ _ _ := .error (.userError 2)
  call _ _ _ := .error (.userError 3)
  toLength _ := .error (.userError 4)
  toBoolean _ := false

/-- Collaborators where invocation returns the primitive number 3. -/
def Ccall3 : Collaborators where
  getProp _ _ := .ok Value.undefined
  setProp _ _ _ := .error (.userError 2)
  call _ _ _ := .ok (Value.smi 3)
  toLength _ := .error (.userError 4)
  toBoolean _ := false

/-- Collaborators where the exec property fetch yields the callable execFn
and invocation returns null. -/
def CFetch : Collaborators where
  getProp _ _ := .ok execFn
  setProp _ _ _ := .error (.userError 2)
  call _ _ _ := .ok Value.null
  toLength _ := .error (.userError 4)
  toBoolean _ := false

/-- Collaborators where the lastIndex property reads as Smi 4 and ToLength
is the identity on it. -/
def Cidx4 : Collaborators where
  getProp _ _ := .ok (Value.smi 4)
  setProp _ _ _ := .error (.userError 2)
  call _ _ _ := .error (.userError 3)
  toLength v := .ok v
  toBoolean _ := false

/-- Collaborators where the match-symbol property reads as Smi 1 and boolean
coercion is constantly true. -/
def Cmatch1 : Collaborators where
  getProp _ _ := .ok (Value.smi 1)
  setProp _ _ _ := .error (.userError 2)
  call _ _ _ := .error (.userError 3)
  toLength _ := .error (.userError 4)
  toBoolean _ := true

/-- C1 counterexample: recvForeign is classified modified (Foreign) by
IsUnmodifiedRegExp, yet GetLastIndex and SetLastIndex both take the
direct-slot path on it: with every collaborator oracle failing they still
succeed, reading and writing the internal slot, so the direct path is taken
for a matcher the classifier calls Foreign. -/
theorem c1_cursor_counterexample :
    IsUnmodifiedRegExp iso0 (Value.receiver recvForeign) = false ∧
    GetLastIndex iso0 CErr recvForeign = .ok (Value.smi 0) ∧
    SetLastIndex iso0 CErr recvForeign 7 =
      .ok (Value.receiver (recvForeign.setLastIndexSlot (Value.smi 7)),
        recvForeign.setLastIndexSlot (Value.smi 7)) :=
  ⟨rfl, rfl, rfl⟩

/-- C1 amended: the cursor accessors take the direct internal-slot path
exactly when the matcher has the built-in initial map (HasInitialRegExpMap);
IsUnmodifiedRegExp implies that map check, so every Canonical matcher takes
the direct path, but the converse fails; on the non-initial-map side both
accessors go through the general property protocol. -/
theorem c1_cursor_amended (iso : Isolate) (C : Collaborators)
    (recv : Receiver) (value : Nat) :
    (IsUnmodifiedRegExp iso (Value.receiver recv) = true →
      HasInitialRegExpMap iso recv = true) ∧
    (HasInitialRegExpMap iso recv = true →
      GetLastIndex iso C recv = .ok recv.lastIndex ∧
      SetLastIndex iso C recv value =
        .ok (Value.receiver (recv.setLastIndexSlot (NewNumberFromInt64 value)),
          recv.setLastIndexSlot (NewNumberFromInt64 value))) ∧
    (HasInitialRegExpMap iso recv = false →
      GetLastIndex iso C recv = C.getProp recv PropKey.lastIndex ∧
      SetLastIndex iso C recv value =
        C.setProp recv PropKey.lastIndex (NewNumberFromInt64 value)) := by
  refine ⟨?_, ?_, ?_⟩
  · intro h
    cases recv with
    | mk m p r li c =>
      by_cases hm : m = iso.regexpInitialMap
      · simp [HasInitialRegExpMap, Receiver.map, hm]
      · exfalso
        simp [IsUnmodifiedRegExp, Receiver.map, hm] at h
  · intro h
    constructor <;> simp [GetLastIndex, SetLastIndex, h]
  · intro h
    constructor <;> simp [GetLastIndex, SetLastIndex, h]

/-- C1 amended witness: on a pristine matcher the read returns the slot
value although every oracle fails; on a plain object the read is the
generic property read, whose failure surfaces. -/
theorem c1_cursor_amended_witness :
    GetLastIndex iso0 CErr recvInit = .ok (Value.smi 0) ∧
    GetLastIndex iso0 CErr recvPlain = .error (.userError 1) := by
  have h1 := (c1_cursor_amended iso0 CErr recvInit 7).2.1 rfl
  have h2 := (c1_cursor_amended iso0 CErr recvPlain 7).2.2 rfl
  exact ⟨h1.1, h2.1.trans rfl⟩

/-- C10: when the matcher has the built-in initial map, SetLastIndex writes
the numeric representation of the argument into the internal lastIndex slot
and returns the matcher object itself, and it cannot fail. -/
theorem c10_setLastIndex_fast (iso : Isolate) (C : Collaborators)
    (recv : Receiver) (value : Nat)
    (h : HasInitialRegExpMap iso recv = true) :
    SetLastIndex iso C recv value =
      .ok (Value.receiver (recv.setLastIndexSlot (NewNumberFromInt64 value)),
        recv.setLastIndexSlot (NewNumberFromInt64 value)) := by
  simp [SetLastIndex, h]

/-- C10 witness: writing 3 into a pristine matcher succeeds with failing
oracles, stores Smi 3, and returns the matcher. -/
theorem c10_setLastIndex_fast_witness :
    SetLastIndex iso0 CErr recvInit 3 =
      .ok (Value.receiver (.mk 0 (some 1) true (Value.smi 3) false),
        .mk 0 (some 1) true (Value.smi 3) false) :=
  (c10_setLastIndex_fast iso0 CErr recvInit 3 rfl).trans rfl

/-- C2: when the resolved exec value is callable (whether supplied by the
caller or fetched from the exec property), RegExpExec invokes it with the
matcher as receiver and the subject as sole argument; an error propagates,
a null or receiver result is returned unchanged, and any other primitive
result is an InvalidRegExpExecResult type error. -/
theorem c2_regExpExec_callable (iso : Isolate) (C : Collaborators)
    (regexp : Receiver) (string : List Nat) :
    (∀ exec, exec.isCallable = true →
      (∀ e, C.call exec (Value.receiver regexp) [Value.str string] = .error e →
        RegExpExec iso C regexp string exec = .error e) ∧
      (∀ r, C.call exec (Value.receiver regexp) [Value.str string] = .ok r →
        RegExpExec iso C regexp string exec =
          if r.isJSReceiver || r.isNull then .ok r
          else .error (.typeError .kInvalidRegExpExecResult))) ∧
    (∀ v, C.getProp regexp PropKey.exec = .ok v → v.isCallable = true →
      ∀ r, C.call v (Value.receiver regexp) [Value.str string] = .ok r →
        RegExpExec iso C regexp string Value.undefined =
          if r.isJSReceiver || r.isNull then .ok r
          else .error (.typeError .kInvalidRegExpExecResult)) := by
  constructor
  · intro exec hc
    constructor
    · intro e he
      cases exec <;>
        simp_all [RegExpExec, Value.isUndefined, Value.isCallable]
    · intro r hr
      cases exec <;>
        [skip; skip; skip; skip; skip;
          (cases r <;>
            simp_all [RegExpExec, Value.isUndefined, Value.isCallable,
              Value.isJSReceiver, Value.isNull])] <;>
        simp_all [Value.isCallable]
  · intro v hv hc r hr
    cases v <;>
      [skip; skip; skip; skip; skip;
        (cases r <;>
          simp_all [RegExpExec, Value.isUndefined, Value.isCallable,
            Value.isJSReceiver, Value.isNull])] <;>
      simp_all [Value.isCallable]

/-- C2 witness: a callable exec returning the primitive number 3 makes
RegExpExec fail with the InvalidRegExpExecResult type error. -/
theorem c2_regExpExec_callable_witness :
    RegExpExec iso0 Ccall3 recvPlain [97] execFn =
      .error (.typeError .kInvalidRegExpExecResult) := by
  have h := ((c2_regExpExec_callable iso0 Ccall3 recvPlain [97]).1 execFn
    rfl).2 (Value.smi 3) rfl
  exact h.trans rfl

/-- C3: when the resolved exec value is not callable (supplied or fetched),
RegExpExec fails with the IncompatibleMethodReceiver type error whenever the
matcher is not a genuine JSRegExp — regardless of what the internal engine
would return — and otherwise invokes the built-in exec function on the
matcher with the subject and returns its result. -/
theorem c3_regExpExec_noncallable (iso : Isolate) (C : Collaborators)
    (regexp : Receiver) (string : List Nat) :
    (∀ exec, exec.isUndefined = false → exec.isCallable = false →
      RegExpExec iso C regexp string exec =
        if regexp.isJSRegExp then
          C.call iso.regexpExecFunction (Value.receiver regexp)
            [Value.str string]
        else .error (.typeError .kIncompatibleMethodReceiver)) ∧
    (∀ v, C.getProp regexp PropKey.exec = .ok v → v.isCallable = false →
      RegExpExec iso C regexp string Value.undefined =
        if regexp.isJSRegExp then
          C.call iso.regexpExecFunction (Value.receiver regexp)
            [Value.str string]
        else .error (.typeError .kIncompatibleMethodReceiver)) := by
  constructor
  · intro exec hu hc
    cases hr : regexp.isJSRegExp <;>
      cases exec <;>
        simp_all [RegExpExec, Value.isUndefined, Value.isCallable,
          Value.isJSRegExp]
  · intro v hv hc
    cases hr : regexp.isJSRegExp <;>
      cases v <;>
        simp_all [RegExpExec, Value.isUndefined, Value.isCallable,
          Value.isJSRegExp]

/-- C3 witness: with the non-callable exec value 42, a non-genuine matcher
fails with IncompatibleMethodReceiver even though the engine oracle would
have failed differently, and a genuine matcher returns the engine result. -/
theorem c3_regExpExec_noncallable_witness :
    RegExpExec iso0 CErr recvPlain [97] (Value.smi 42) =
      .error (.typeError .kIncompatibleMethodReceiver) ∧
    RegExpExec iso0 CFetch recvInit [97] (Value.smi 42) = .ok Value.null := by
  have h1 := (c3_regExpExec_noncallable iso0 CErr recvPlain [97]).1
    (Value.smi 42) rfl rfl
  have h2 := (c3_regExpExec_noncallable iso0 CFetch recvInit [97]).1
    (Value.smi 42) rfl rfl
  exact ⟨h1.trans rfl, h2.trans rfl⟩

/-- C9: RegExpExec treats a supplied undefined exec exactly like an absent
one: it fetches the exec property of the matcher, propagating a fetch
error, and continues as if the fetched value had been supplied; when the
supplied exec is defined the property protocol is never consulted (the
result depends only on the invocation oracle). -/
theorem c9_regExpExec_undefined_exec (iso : Isolate) (C : Collaborators)
    (regexp : Receiver) (string : List Nat) :
    (∀ e, C.getProp regexp PropKey.exec = .error e →
      RegExpExec iso C regexp string Value.undefined = .error e) ∧
    (∀ v, C.getProp regexp PropKey.exec = .ok v →
      RegExpExec iso C regexp string Value.undefined =
        RegExpExec iso C regexp string v) ∧
    (∀ exec, exec.isUndefined = false → ∀ C2 : Collaborators,
      C2.call = C.call →
      RegExpExec iso C regexp string exec =
        RegExpExec iso C2 regexp string exec) := by
  refine ⟨?_, ?_, ?_⟩
  · intro e he
    simp [RegExpExec, Value.isUndefined, he]
  · intro v hv
    cases v with
    | undefined => rfl
    | null => simp [RegExpExec, Value.isUndefined, hv]
    | smi n => simp [RegExpExec, Value.isUndefined, hv]
    | heapNumber n => simp [RegExpExec, Value.isUndefined, hv]
    | str s => simp [RegExpExec, Value.isUndefined, hv]
    | receiver r => simp [RegExpExec, Value.isUndefined, hv]
  · intro exec hu C2 hc2
    simp [RegExpExec, hu, hc2]

/-- C9 witness: with an undefined exec argument the exec property is
fetched, yielding a callable that returns null, so RegExpExec returns
null. -/
theorem c9_regExpExec_undefined_exec_witness :
    RegExpExec iso0 CFetch recvPlain [97] Value.undefined = .ok Value.null :=
  ((c9_regExpExec_undefined_exec iso0 CFetch recvPlain [97]).2.1 execFn
    rfl).trans rfl

/-- C7: IsRegExp returns false without error on a non-receiver; on a
receiver it reads the match symbol property, propagating a read error; a
defined read value decides by boolean coercion, an undefined one by
genuine-JSRegExp-ness. -/
theorem c7_isRegExp_spec (iso : Isolate) (C : Collaborators) (obj : Value) :
    (obj.isJSReceiver = false → IsRegExp iso C obj = .ok false) ∧
    (∀ recv, obj = Value.receiver recv →
      (∀ e, C.getProp recv PropKey.matchSymbol = .error e →
        IsRegExp iso C obj = .error e) ∧
      (∀ m, C.getProp recv PropKey.matchSymbol = .ok m →
        IsRegExp iso C obj =
          .ok (if m.isUndefined = false then C.toBoolean m
            else recv.isJSRegExp))) := by
  constructor
  · intro h
    cases obj <;> simp_all [IsRegExp, Value.isJSReceiver]
  · intro recv hobj
    subst hobj
    constructor
    · intro e he
      simp [IsRegExp, he]
    · intro m hm
      cases m <;>
        simp_all [IsRegExp, Value.isUndefined, Value.isJSRegExp]

/-- C7 witness: a primitive is not a regexp and no oracle runs; an object
whose match symbol property is the defined value 1 is classified by boolean
coercion (true here) although it is not a genuine JSRegExp. -/
theorem c7_isRegExp_witness :
    IsRegExp iso0 CErr (Value.smi 3) = .ok false ∧
    IsRegExp iso0 Cmatch1 (Value.receiver recvPlain) = .ok true := by
  have h1 := (c7_isRegExp_spec iso0 CErr (Value.smi 3)).1 rfl
  have h2 := ((c7_isRegExp_spec iso0 Cmatch1
    (Value.receiver recvPlain)).2 recvPlain rfl).2 (Value.smi 1) rfl
  exact ⟨h1, h2.trans rfl⟩

/-- C8: SetAdvancedStringIndex reads the current lastIndex through the
general property protocol (propagating a read error even for a pristine
matcher), coerces it with ToLength (propagating a coercion error), and
writes the advanced index back through SetLastIndex. -/
theorem c8_setAdvancedStringIndex_spec (iso : Isolate) (C : Collaborators)
    (regexp : Receiver) (string : List Nat) (unicode : Bool) :
    (∀ e, C.getProp regexp PropKey.lastIndex = .error e →
      SetAdvancedStringIndex iso C regexp string unicode = .error e) ∧
    (∀ v e, C.getProp regexp PropKey.lastIndex = .ok v →
      C.toLength v = .error e →
      SetAdvancedStringIndex iso C regexp string unicode = .error e) ∧
    (∀ v lv, C.getProp regexp PropKey.lastIndex = .ok v →
      C.toLength v = .ok lv →
      SetAdvancedStringIndex iso C regexp string unicode =
        SetLastIndex iso C regexp
          (AdvanceStringIndex string (PositiveNumberToUint64 lv) unicode)) := by
  refine ⟨?_, ?_, ?_⟩
  · intro e he
    simp [SetAdvancedStringIndex, he]
  · intro v e hv he
    simp [SetAdvancedStringIndex, hv, he]
  · intro v lv hv hlv
    simp [SetAdvancedStringIndex, hv, hlv]

/-- C8 witness: after a zero-width match at index 4 on a ten-unit
non-unicode subject, the cursor of a pristine matcher becomes 5 — the read
went through the property protocol (which reported 4) and the write through
the internal slot. -/
theorem c8_setAdvancedStringIndex_witness :
    SetAdvancedStringIndex iso0 Cidx4 recvInit
      [97, 97, 97, 97, 97, 97, 97, 97, 97, 97] false =
      .ok (Value.receiver (.mk 0 (some 1) true (Value.smi 5) false),
        .mk 0 (some 1) true (Value.smi 5) false) := by
  have h := (c8_setAdvancedStringIndex_spec iso0 Cidx4 recvInit
    [97, 97, 97, 97, 97, 97, 97, 97, 97, 97] false).2.2
    (Value.smi 4) (Value.smi 4) rfl rfl
  exact h.trans rfl

end V8
